import Mathlib

/-!
Verification of `Creating_Test_PII_Data.py`: a shallow embedding of the
record generator, size estimator, the four format exporters' filename
collision handling, the interactive controller, and the main dispatch
loop, together with theorems settling the specification claims.

The filesystem is modelled as the list of existing file paths; an
exporter is modelled by the path it writes to. Python floats are
modelled as exact rationals; `int(...)` on a string/float, `float(...)`
on a string, `str.strip`, `str.lower`, `str.isdigit`, `str.split`,
`os.path.join` and `os.path.splitext` are embedded below. Faker is an
opaque capability, passed in as a function from record index to a
sample.
-/

/-- `os.path.join(directory, filename)` for a directory without a
trailing separator and a filename without separators. -/
def joinPath (directory filename : String) : String :=
  directory ++ "/" ++ filename

/-- `os.path.splitext` on a bare filename (no path separators): split at
the last dot, provided some character before that dot is not itself a
dot (leading dots, as in `.bashrc`, never start an extension). -/
def splitextChars (cs : List Char) : List Char × List Char :=
  let rev := cs.reverse
  let extRev := rev.takeWhile (fun c => c ≠ '.')
  match rev.dropWhile (fun c => c ≠ '.') with
  | [] => (cs, [])
  | _ :: baseRev =>
    if baseRev.any (fun c => c ≠ '.') then
      (baseRev.reverse, '.' :: extRev.reverse)
    else (cs, [])

/-- `os.path.splitext` lifted to `String`. -/
def splitext (s : String) : String × String :=
  let p := splitextChars s.data
  (String.mk p.1, String.mk p.2)

/-- The disambiguated candidate name `f"{base}({counter}){extension}"`
built from `filename` by `splitext`. -/
def candidate (filename : String) (counter : Nat) : String :=
  let p := splitext filename
  p.1 ++ "(" ++ toString counter ++ ")" ++ p.2

/-- Collision loop of `export_to_excel` and `export_to_word` (lines
50-55 and 66-71): `filepath` starts at `join(directory, filename)`;
while it exists, it is recomputed from the ORIGINAL `filename` as
`base(counter)ext` with the counter incremented. Structural fuel stands
in for the unbounded `while`; `none` means the fuel ran out before a
free path was found. -/
def resolveLoopEW (fs : List String) (directory filename : String) :
    Nat → Nat → String → Option String
  | 0, _, filepath => if filepath ∈ fs then none else some filepath
  | fuel + 1, counter, filepath =>
    if filepath ∈ fs then
      resolveLoopEW fs directory filename fuel (counter + 1)
        (joinPath directory (candidate filename counter))
    else some filepath

/-- Collision loop of `export_to_pdf` and `export_to_text` (lines 86-89
and 108-111): while `join(directory, filename)` exists, `filename`
ITSELF is replaced by `base(counter)ext` — so `splitext` is applied to
the already-disambiguated name on later iterations. Returns the final
filename (not joined). -/
def resolveLoopMut (fs : List String) (directory : String) :
    Nat → Nat → String → Option String
  | 0, _, filename =>
    if joinPath directory filename ∈ fs then none else some filename
  | fuel + 1, counter, filename =>
    if joinPath directory filename ∈ fs then
      resolveLoopMut fs directory fuel (counter + 1) (candidate filename counter)
    else some filename

/-- The path `export_to_excel` writes to (`df.to_excel(filepath)` after
the collision loop), as a function of the pre-existing paths `fs`. -/
def export_to_excel_path (fs : List String) (filename directory : String) :
    Option String :=
  resolveLoopEW fs directory filename (fs.length + 1) 1 (joinPath directory filename)

/-- The path `export_to_word` writes to (`doc.save(filepath)` after an
identical collision loop). -/
def export_to_word_path (fs : List String) (filename directory : String) :
    Option String :=
  resolveLoopEW fs directory filename (fs.length + 1) 1 (joinPath directory filename)

/-- The path `export_to_text` writes to: `open(os.path.join(directory,
filename), 'w')` with the mutated `filename` after its loop. -/
def export_to_text_path (fs : List String) (filename directory : String) :
    Option String :=
  (resolveLoopMut fs directory (fs.length + 1) 1 filename).map (joinPath directory)

/-- Outcome of `export_to_pdf`: `writtenPath` is where the canvas file
is actually saved, `reportedName` the filename printed at the end. -/
structure PdfResult where
  writtenPath : String
  reportedName : String
deriving DecidableEq, Repr

/-- `export_to_pdf` (lines 83-104): the canvas is created at
`os.path.join(directory, filename)` BEFORE the collision loop runs, so
`c.save()` writes to the original path whatever the loop computes; the
print statement reports the mutated `filename`. -/
def export_to_pdf_result (fs : List String) (filename directory : String) :
    Option PdfResult :=
  (resolveLoopMut fs directory (fs.length + 1) 1 filename).map
    (fun fn => ⟨joinPath directory filename, fn⟩)

/-- Writing a file: the path is added to the set of existing paths (an
overwrite of an existing path leaves the set unchanged). -/
def writeFile (fs : List String) (p : String) : List String :=
  if p ∈ fs then fs else p :: fs

/-- One draw from the opaque fake-data capability: the five raw strings
`fake.name()`, `fake.address()`, `fake.phone_number()`, `fake.email()`,
`fake.sentence()` sampled for one record. -/
structure FakeSample where
  name : String
  address : String
  phone_number : String
  email : String
  sentence : String
deriving DecidableEq, Repr

/-- `.replace("\n", ", ")` for the single-character pattern `"\n"`:
each newline character expands to a comma and a space, every other
character is kept. -/
def replaceNewlines (s : String) : String :=
  String.mk ((s.data.map (fun c => if c = '\n' then [',', ' '] else [c])).flatten)

/-- One record of `generate_data`: the dict with the five fixed keys, in
source order; the address has its newlines replaced (line 36). -/
def mkRecord (f : FakeSample) : List (String × String) :=
  [("Full Name", f.name),
   ("Address", replaceNewlines f.address),
   ("Phone Number", f.phone_number),
   ("Email Address", f.email),
   ("Customer Feedback", f.sentence)]

/-- `generate_data(record_count)` (lines 27-41): one record per element
of `range(record_count)` — empty for a non-positive count. The sampler
`fake` supplies the draw for each index. -/
def generate_data (fake : Nat → FakeSample) (record_count : Int) :
    List (List (String × String)) :=
  (List.range record_count.toNat).map (fun i => mkRecord (fake i))

/-- Python `int(...)` applied to a float modelled as a rational:
truncation toward zero. -/
def pyInt (q : ℚ) : Int :=
  if q < 0 then ⌈q⌉ else ⌊q⌋

/-- `average_bytes_per_record = 125` (line 140). -/
def average_bytes_per_record : ℚ := 125

/-- Line 141: `num_records = int((file_size_mb * 1024 * 1024) /
average_bytes_per_record)`, with the float modelled as an exact
rational. -/
def sizeToCount (file_size_mb : ℚ) : Int :=
  pyInt ((file_size_mb * 1024 * 1024) / average_bytes_per_record)

/-- Python `str.strip()`: drop leading and trailing whitespace. Defined
on the character list so the kernel can evaluate it. -/
def pyStrip (s : String) : String :=
  String.mk (((s.data.dropWhile Char.isWhitespace).reverse.dropWhile
    Char.isWhitespace).reverse)

/-- Python `str.split(sep)` for a one-character separator (the only
form the source uses): splitting the empty string yields `[""]`. -/
def splitOnChar (sep : Char) : List Char → List (List Char)
  | [] => [[]]
  | c :: cs =>
    let r := splitOnChar sep cs
    if c = sep then [] :: r
    else
      match r with
      | [] => [[c]]
      | h :: t => (c :: h) :: t

/-- `str.split` lifted to `String`. -/
def pySplit (sep : Char) (s : String) : List String :=
  (splitOnChar sep s.data).map String.mk

/-- Python `str.lower()` on the ASCII alphabet of the modelled
answers. -/
def pyLower (s : String) : String :=
  String.mk (s.data.map Char.toLower)

/-- The digit-string value `int(s)` for an all-digit string; `""` maps
to `0` (used for the integer or fractional part of a float literal). -/
def natOfDigits (s : String) : Nat :=
  s.data.foldl (fun n c => 10 * n + (c.toNat - 48)) 0

/-- A nonempty all-digit string, i.e. Python `str.isdigit()` on the
ASCII alphabet. -/
def isDigits (s : String) : Prop :=
  s ≠ "" ∧ s.data.all Char.isDigit

instance (s : String) : Decidable (isDigits s) := by
  unfold isDigits; infer_instance

/-- Python `int(input(...))`: strip surrounding whitespace, optional
sign, then a nonempty run of decimal digits; anything else raises
`ValueError`, modelled as `none`. (Underscore separators and non-ASCII
digits are outside the modelled input alphabet.) -/
def parsePyInt (s : String) : Option Int :=
  match (pyStrip s).data with
  | '-' :: u =>
    if isDigits (String.mk u) then some (-(natOfDigits (String.mk u) : Int)) else none
  | '+' :: u =>
    if isDigits (String.mk u) then some (natOfDigits (String.mk u) : Int) else none
  | u =>
    if isDigits (String.mk u) then some (natOfDigits (String.mk u) : Int) else none

/-- Decimal core of a Python float literal: digits with an optional
single dot, at least one digit overall. -/
def parseFloatCore (u : String) : Option ℚ :=
  match pySplit '.' u with
  | [a] => if isDigits a then some (natOfDigits a : ℚ) else none
  | [a, b] =>
    if (a ≠ "" ∨ b ≠ "") ∧ a.data.all Char.isDigit ∧ b.data.all Char.isDigit then
      some ((natOfDigits a : ℚ) + (natOfDigits b : ℚ) / (10 : ℚ) ^ b.length)
    else none
  | _ => none

/-- Python `float(input(...))`: strip, optional sign, decimal digits
with an optional dot; anything else raises `ValueError`, modelled as
`none`; the value is modelled as an exact rational. (Exponent forms,
`inf`/`nan` and underscores are outside the modelled input alphabet.) -/
def parsePyFloat (s : String) : Option ℚ :=
  match (pyStrip s).data with
  | '-' :: u => (parseFloatCore (String.mk u)).map (fun q => -q)
  | '+' :: u => parseFloatCore (String.mk u)
  | u => parseFloatCore (String.mk u)

/-- `f"{file_size_mb}MB"`: the size-based file label. Python's float
repr is abstracted as the rational's repr; no claim depends on this
text. -/
def sizeLabel (q : ℚ) : String :=
  toString q ++ "MB"

/-- One comma-separated token of the format-selection answer (line 162):
kept when `choice.strip().isdigit() and int(choice.strip()) in
range(1, 5)`, mapped to `int(choice.strip())`. -/
def keepToken (tok : String) : Option Nat :=
  let t := pyStrip tok
  if isDigits t then
    if 1 ≤ natOfDigits t ∧ natOfDigits t ≤ 4 then some (natOfDigits t) else none
  else none

/-- Lines 157-162: the stripped answer `"0"` selects all four formats;
otherwise each comma-separated token is filtered through `keepToken`. -/
def parseFileTypes (raw : String) : List Nat :=
  let file_types := pyStrip raw
  if file_types = "0" then [1, 2, 3, 4]
  else (pySplit ',' file_types).filterMap keepToken

/-- The console answers a run of `user_input_options` may consume, in
prompt order: input-mode choice, naming basis, the count-or-size value,
the large-batch confirmation, and the format selection. Answers to
prompts the flow never reaches are simply unread. -/
structure Script where
  choice : String
  naming : String
  value : String
  confirm : String
  fileTypes : String
deriving DecidableEq, Repr

/-- What `user_input_options` returns: the three error paths each print
their diagnostic and `return None, None` (a 2-tuple); the success path
returns the 3-tuple `(num_records, file_label, selected_file_types)`. -/
inductive UIOResult where
  | invalidChoice
  | invalidNumber
  | cancelledBig
  | ok (num_records : Int) (file_label : String) (selected_file_types : List Nat)
deriving DecidableEq, Repr

/-- Result of `user_input_options` plus whether the large-batch
confirmation prompt was shown. -/
structure UIOOutput where
  result : UIOResult
  confirmPrompted : Bool
deriving DecidableEq, Repr

/-- Lines 147-164: the warning gate (`num_records >= 11700`, answer
stripped and lowercased, anything but `"yes"` cancels) followed by the
format-selection prompt and the successful 3-tuple return. -/
def confirmGate (n : Int) (file_label : String) (inp : Script) : UIOOutput :=
  if n ≥ 11700 then
    if pyLower (pyStrip inp.confirm) ≠ "yes" then ⟨.cancelledBig, true⟩
    else ⟨.ok n file_label (parseFileTypes inp.fileTypes), true⟩
  else ⟨.ok n file_label (parseFileTypes inp.fileTypes), false⟩

/-- `user_input_options()` (lines 122-164) over a console script. The
stripped mode choice must be `"1"` or `"2"`; the naming answer is read
but never validated; a `ValueError` from `int(...)`/`float(...)` takes
the `except` branch; mode 2 runs the size estimate of line 141. -/
def user_input_options (inp : Script) : UIOOutput :=
  let choice := pyStrip inp.choice
  if choice ≠ "1" ∧ choice ≠ "2" then ⟨.invalidChoice, false⟩
  else
    let file_naming_preference := pyStrip inp.naming
    if choice = "1" then
      match parsePyInt inp.value with
      | none => ⟨.invalidNumber, false⟩
      | some num_records =>
        confirmGate num_records
          (if file_naming_preference = "1" then toString num_records ++ "_records"
           else "custom_size") inp
    else
      match parsePyFloat inp.value with
      | none => ⟨.invalidNumber, false⟩
      | some file_size_mb =>
        let num_records := sizeToCount file_size_mb
        confirmGate num_records
          (if file_naming_preference = "2" then sizeLabel file_size_mb
           else toString num_records ++ "_records") inp

/-- `setup_directories` base path (line 9). -/
def base_path : String := "Testing_PII_Data"

/-- `excel_dir` of `setup_directories` (line 15). -/
def excel_dir : String := joinPath base_path "Excel Files"

/-- `word_dir` of `setup_directories` (line 16). -/
def word_dir : String := joinPath base_path "Word Files"

/-- `pdf_dir` of `setup_directories` (line 17). -/
def pdf_dir : String := joinPath base_path "PDF Files"

/-- `text_dir` of `setup_directories` (line 18). -/
def text_dir : String := joinPath base_path "Text Files"

/-- The extension of the `file_types_functions` entry for a format code
(lines 172-177). -/
def extFor (t : Nat) : String :=
  if t = 1 then "xlsx" else if t = 2 then "docx" else if t = 3 then "pdf" else "txt"

/-- The directory of the `file_types_functions` entry for a format
code. -/
def dirFor (t : Nat) : String :=
  if t = 1 then excel_dir else if t = 2 then word_dir
  else if t = 3 then pdf_dir else text_dir

/-- One call `export_func(data, filename, directory)` of the main loop:
the updated filesystem and the path written (`none` if the fuel of the
collision loop ran out). Codes 1 and 2 use the Excel/Word loop; code 4
the Text loop; code 3 the PDF exporter, which saves its canvas at the
pre-loop path. -/
def exportOne (fs : List String) (t : Nat) (filename directory : String) :
    List String × Option String :=
  if t = 1 ∨ t = 2 then
    match resolveLoopEW fs directory filename (fs.length + 1) 1
        (joinPath directory filename) with
    | some p => (writeFile fs p, some p)
    | none => (fs, none)
  else if t = 4 then
    match resolveLoopMut fs directory (fs.length + 1) 1 filename with
    | some fn => (writeFile fs (joinPath directory fn), some (joinPath directory fn))
    | none => (fs, none)
  else
    (writeFile fs (joinPath directory filename), some (joinPath directory filename))

/-- The dispatch loop of `__main__` (lines 179-183): iterate over
`selected_file_types` IN ENTRY ORDER, skipping codes outside the
dispatch dict, building `customer_responses_<label>.<ext>` and calling
the exporter against the current filesystem. Returns the final
filesystem and the written paths in write order. -/
def runExports (file_label : String) (sel : List Nat) (fs0 : List String) :
    List String × List String :=
  sel.foldl
    (fun acc t =>
      if 1 ≤ t ∧ t ≤ 4 then
        let filename := "customer_responses_" ++ file_label ++ "." ++ extFor t
        let r := exportOne acc.1 t filename (dirFor t)
        (r.1, acc.2 ++ r.2.toList)
      else acc)
    (fs0, [])

/-- The order in which the main loop reaches exporters: the entered
codes, in entry order, restricted to those in `file_types_functions`. -/
def invocationOrder (sel : List Nat) : List Nat :=
  sel.filter (fun t => decide (1 ≤ t ∧ t ≤ 4))

/-- Outcome of running `__main__`: unpacking the 2-tuple returned on any
error/cancellation path into three variables raises `ValueError`
(`unpackError`); with a 3-tuple, the guard skips everything when
`selected_file_types` is empty; otherwise the exports run. -/
inductive MainResult where
  | unpackError
  | skipped
  | completed (written : List String) (finalFS : List String)
deriving DecidableEq, Repr

/-- `__main__` (lines 167-183) over a console script and the
pre-existing files. -/
def mainRun (inp : Script) (fs0 : List String) : MainResult :=
  match (user_input_options inp).result with
  | .ok _ file_label sel =>
    if sel = [] then .skipped
    else
      let r := runExports file_label sel fs0
      .completed r.2 r.1
  | _ => .unpackError

/-- The output files a `__main__` outcome wrote. -/
def writesOf : MainResult → List String
  | .unpackError => []
  | .skipped => []
  | .completed written _ => written

/-- A fixed concrete sampler standing in for one Faker instance, used
to instantiate the generator theorems; its address contains a
newline. -/
def sampleFake : Nat → FakeSample :=
  fun _ => ⟨"John Doe", "1 Main St\nSpringfield", "555-0100", "jd@example.com", "Fine."⟩

example : export_to_excel_path ["d/a.xlsx"] "a.xlsx" "d" = some "d/a(1).xlsx" := by
  decide

example :
    export_to_excel_path ["d/a.xlsx", "d/a(1).xlsx"] "a.xlsx" "d" =
      some "d/a(2).xlsx" := by decide

example :
    export_to_text_path ["d/a.txt", "d/a(1).txt"] "a.txt" "d" =
      some "d/a(1)(2).txt" := by decide

example :
    export_to_pdf_result ["d/a.pdf"] "a.pdf" "d" =
      some ⟨"d/a.pdf", "a(1).pdf"⟩ := by decide

example : parsePyFloat "0.001" = some (1/1000) := by
  rw [show parsePyFloat "0.001" =
      some ((natOfDigits "0" : ℚ) + (natOfDigits "001" : ℚ) / (10 : ℚ) ^ (3 : Nat))
    from rfl]
  rw [show natOfDigits "0" = 0 from rfl, show natOfDigits "001" = 1 from rfl]
  norm_num

example : sizeToCount (1/1000) = 8 := by
  unfold sizeToCount pyInt average_bytes_per_record
  norm_num

example :
    user_input_options ⟨"1", "1", "20000", "no", "0"⟩ =
      ⟨.cancelledBig, true⟩ := by decide

example :
    user_input_options ⟨"2", "1", "0.001", "", "4"⟩ =
      ⟨.ok 8 "8_records" [4], false⟩ := by
  have h1 : parsePyFloat "0.001" = some (1/1000) := by
    rw [show parsePyFloat "0.001" =
        some ((natOfDigits "0" : ℚ) + (natOfDigits "001" : ℚ) / (10 : ℚ) ^ (3 : Nat))
      from rfl]
    rw [show natOfDigits "0" = 0 from rfl, show natOfDigits "001" = 1 from rfl]
    norm_num
  have h2 : sizeToCount (1/1000) = 8 := by
    unfold sizeToCount pyInt average_bytes_per_record
    norm_num
  have h0 : user_input_options ⟨"2", "1", "0.001", "", "4"⟩ =
      match parsePyFloat "0.001" with
      | none => ⟨.invalidNumber, false⟩
      | some q =>
        confirmGate (sizeToCount q)
          (if pyStrip "1" = "2" then sizeLabel q
           else toString (sizeToCount q) ++ "_records") ⟨"2", "1", "0.001", "", "4"⟩ := rfl
  rw [h0, h1]
  simp only [h2]
  decide

example :
    mainRun ⟨"1", "1", "5", "", "1,1"⟩ [] =
      .completed
        ["Testing_PII_Data/Excel Files/customer_responses_5_records.xlsx",
         "Testing_PII_Data/Excel Files/customer_responses_5_records(1).xlsx"]
        ["Testing_PII_Data/Excel Files/customer_responses_5_records(1).xlsx",
         "Testing_PII_Data/Excel Files/customer_responses_5_records.xlsx"] := by decide

example : parseFileTypes "1,0,5,2, 3 ,x" = [1, 2, 3] := by decide

/-! ## Shared lemmas -/

lemma pyInt_mono {a b : ℚ} (h : a ≤ b) : pyInt a ≤ pyInt b := by
  unfold pyInt
  split_ifs with ha hb hb
  · exact Int.ceil_le_ceil h
  · calc ⌈a⌉ ≤ 0 := Int.ceil_le.mpr (by exact_mod_cast ha.le)
    _ ≤ ⌊b⌋ := Int.floor_nonneg.mpr (not_lt.mp hb)
  · exact absurd (h.trans_lt hb) (not_lt.mp ha).not_lt
  · exact Int.floor_le_floor h

lemma newline_not_mem_replaceNewlines (s : String) : '\n' ∉ (replaceNewlines s).data := by
  intro h
  have h' : '\n' ∈ (s.data.map (fun c => if c = '\n' then [',', ' '] else [c])).flatten := h
  obtain ⟨l, hl, hmem⟩ := List.mem_flatten.mp h'
  obtain ⟨c, _, rfl⟩ := List.mem_map.mp hl
  by_cases hc : c = '\n'
  · rw [if_pos hc] at hmem
    exact absurd hmem (by decide)
  · rw [if_neg hc] at hmem
    rw [List.mem_singleton] at hmem
    exact hc hmem.symm

lemma keepToken_eq_some {tok : String} {v : Nat} :
    keepToken tok = some v ↔
      isDigits (pyStrip tok) ∧ natOfDigits (pyStrip tok) = v ∧ 1 ≤ v ∧ v ≤ 4 := by
  simp only [keepToken]
  split_ifs with hd hb
  · constructor
    · intro h
      obtain rfl := Option.some.injEq .. ▸ h
      exact ⟨hd, rfl, hb⟩
    · rintro ⟨-, rfl, -⟩
      rfl
  · constructor
    · intro h; exact absurd h (by simp)
    · rintro ⟨-, rfl, h1, h4⟩
      exact absurd ⟨h1, h4⟩ hb
  · constructor
    · intro h; exact absurd h (by simp)
    · rintro ⟨hd2, -, -⟩
      exact absurd hd2 hd

lemma mem_parseFileTypes {v : Nat} {s : String} (h : v ∈ parseFileTypes s) :
    1 ≤ v ∧ v ≤ 4 := by
  simp only [parseFileTypes] at h
  split_ifs at h with h0
  · simp only [List.mem_cons, List.not_mem_nil, or_false] at h
    rcases h with rfl | rfl | rfl | rfl <;> omega
  · obtain ⟨tok, _, hk⟩ := List.mem_filterMap.mp h
    obtain ⟨-, -, hb⟩ := keepToken_eq_some.mp hk
    exact hb

/-! ## Claim theorems -/

/-- C1 (code_bug). The claimed uniform collision policy — disambiguator
`(n)` inserted before the extension of the ORIGINAL filename, third
write bearing `(2)` — holds for the Excel and Word exporters but not
for Text or PDF: with `a.txt` and `a(1).txt` present, the Text exporter
writes `a(1)(2).txt` instead of the claimed `a(2).txt` (it re-splits the
mutated name), and with `a.pdf` present the PDF exporter saves its
canvas at the pre-existing original path `d/a.pdf` while reporting
`a(1).pdf`. -/
theorem c1_collision_policy_not_uniform :
    export_to_excel_path ["d/a.xlsx", "d/a(1).xlsx"] "a.xlsx" "d" = some "d/a(2).xlsx"
    ∧ export_to_word_path ["d/a.docx", "d/a(1).docx"] "a.docx" "d" = some "d/a(2).docx"
    ∧ export_to_text_path ["d/a.txt", "d/a(1).txt"] "a.txt" "d" = some "d/a(1)(2).txt"
    ∧ export_to_text_path ["d/a.txt", "d/a(1).txt"] "a.txt" "d" ≠ some "d/a(2).txt"
    ∧ export_to_pdf_result ["d/a.pdf"] "a.pdf" "d" = some ⟨"d/a.pdf", "a(1).pdf"⟩
    ∧ "d/a.pdf" ∈ ["d/a.pdf"] := by
  decide

/-- C2 (code_bug). The claim that every exporter writes to a path that
did not exist before the call fails for the PDF exporter: with `b.pdf`
already present, its canvas is saved at the pre-existing `d/b.pdf`
(overwriting it), whereas e.g. the Word exporter on the same situation
correctly targets the fresh `d/b(1).docx`. -/
theorem c2_pdf_overwrites_existing :
    export_to_pdf_result ["d/b.pdf"] "b.pdf" "d" = some ⟨"d/b.pdf", "b(1).pdf"⟩
    ∧ "d/b.pdf" ∈ ["d/b.pdf"]
    ∧ export_to_word_path ["d/b.docx"] "b.docx" "d" = some "d/b(1).docx"
    ∧ "d/b(1).docx" ∉ ["d/b.docx"] := by
  decide

/-- C4 (code_bug). The threshold and the yes-check behave as claimed
(prompt exactly when the count is at least 11700; the answer is
stripped and lowercased; anything but `"yes"` cancels with zero files
written), but the abort is not clean: `user_input_options` returns the
2-tuple `(None, None)` and unpacking it into three variables in
`__main__` raises `ValueError`. -/
theorem c4_cancellation_unpack_crash :
    user_input_options ⟨"1", "1", "20000", "no", "0"⟩ = ⟨.cancelledBig, true⟩
    ∧ mainRun ⟨"1", "1", "20000", "no", "0"⟩ [] = .unpackError
    ∧ writesOf (mainRun ⟨"1", "1", "20000", "no", "0"⟩ []) = []
    ∧ user_input_options ⟨"1", "1", "20000", " YES ", "0"⟩ =
        ⟨.ok 20000 "20000_records" [1, 2, 3, 4], true⟩
    ∧ (user_input_options ⟨"1", "1", "11699", "no", "0"⟩).confirmPrompted = false
    ∧ (user_input_options ⟨"1", "1", "11700", "no", "0"⟩).confirmPrompted = true := by
  decide

/-- C6 (counterexample). Selected exporters are NOT invoked in the
fixed order Excel, Word, PDF, Text: entering `"3,1"` invokes PDF before
Excel — the main loop follows the entry order `[3, 1]`, not the
fixed-order restriction `[1, 3]`. -/
theorem c6_counterexample :
    parseFileTypes "3,1" = [3, 1]
    ∧ invocationOrder (parseFileTypes "3,1") = [3, 1]
    ∧ invocationOrder (parseFileTypes "3,1") ≠
        [1, 2, 3, 4].filter (fun t => decide (t ∈ parseFileTypes "3,1"))
    ∧ (runExports "5_records" (parseFileTypes "3,1") []).2 =
        [joinPath pdf_dir "customer_responses_5_records.pdf",
         joinPath excel_dir "customer_responses_5_records.xlsx"] := by
  decide

/-- C6 amended: the Controller invokes exporters in the order the user
listed the format codes (none of the parsed codes is skipped by the
dispatch-dict membership test), and only the `"0"` answer produces the
fixed order Excel, Word, PDF, Text. -/
theorem c6_amended_user_order (s : String) :
    invocationOrder (parseFileTypes s) = parseFileTypes s
    ∧ parseFileTypes "0" = [1, 2, 3, 4] := by
  constructor
  · apply List.filter_eq_self.mpr
    intro v hv
    exact decide_eq_true (mem_parseFileTypes hv)
  · decide

/-- C3 (confirmed). For every positive target size the Size Estimator
computes `floor(size_mb * 1048576 / 125)` with no further rounding or
clamping; `0.001` MB parses to the rational `1/1000` and yields exactly
8 records; a target small enough to floor to zero yields count 0, and
the gate passes a zero count straight through as a valid run (no
confirmation prompt, successful 3-tuple). -/
theorem c3_size_estimator (q : ℚ) (hq : 0 < q) :
    sizeToCount q = ⌊q * 1048576 / 125⌋
    ∧ sizeToCount (1/1000) = 8
    ∧ sizeToCount (1/100000) = 0
    ∧ parsePyFloat "0.001" = some (1/1000)
    ∧ confirmGate 0 "0_records" ⟨"2", "1", "0.00001", "", "4"⟩ =
        ⟨.ok 0 "0_records" [4], false⟩ := by
  refine ⟨?_, ?_, ?_, ?_, by decide⟩
  · unfold sizeToCount pyInt average_bytes_per_record
    rw [if_neg (not_lt.mpr (by positivity))]
    congr 1
    ring
  · unfold sizeToCount pyInt average_bytes_per_record
    norm_num
  · unfold sizeToCount pyInt average_bytes_per_record
    norm_num
  · rw [show parsePyFloat "0.001" =
        some ((natOfDigits "0" : ℚ) + (natOfDigits "001" : ℚ) / (10 : ℚ) ^ (3 : Nat))
      from rfl]
    rw [show natOfDigits "0" = 0 from rfl, show natOfDigits "001" = 1 from rfl]
    norm_num

/-- Witness for C3 at the concrete target 1 MB. -/
theorem c3_size_estimator_witness :
    sizeToCount 1 = ⌊(1 : ℚ) * 1048576 / 125⌋ :=
  (c3_size_estimator 1 (by norm_num)).1

/-- C5 (counterexample). Not every invalid textual input aborts with a
diagnostic and zero files: a naming-basis answer of `"3"` (outside
{1,2}) is silently coerced and the run writes an output file, and a
format-code list `"2,7"` containing the out-of-range `7` silently drops
it and still writes the Word file. -/
theorem c5_counterexample :
    (user_input_options ⟨"1", "3", "5", "", "1"⟩).result = .ok 5 "custom_size" [1]
    ∧ mainRun ⟨"1", "3", "5", "", "1"⟩ [] =
        .completed [joinPath excel_dir "customer_responses_custom_size.xlsx"]
          [joinPath excel_dir "customer_responses_custom_size.xlsx"]
    ∧ writesOf (mainRun ⟨"1", "3", "5", "", "1"⟩ []) ≠ []
    ∧ (user_input_options ⟨"1", "1", "5", "", "2,7"⟩).result = .ok 5 "5_records" [2]
    ∧ writesOf (mainRun ⟨"1", "1", "5", "", "2,7"⟩ []) ≠ [] := by
  decide

/-- C5 amended: a non-numeric count/size and an input-mode selection
outside {1,2} abort after their diagnostic (the abort surfacing as the
2-tuple unpack `ValueError` in `__main__`), with no files written; a
naming-basis selection outside {1,2} is silently treated as the
alternative labelling; format codes outside 1..4 are silently dropped,
an all-invalid list leaving the selection empty. -/
theorem c5_amended_abort_behaviour (inp : Script) (fs0 : List String)
    (h1 : pyStrip inp.choice ≠ "1") (h2 : pyStrip inp.choice ≠ "2") :
    (user_input_options inp).result = .invalidChoice
    ∧ mainRun inp fs0 = .unpackError
    ∧ (∀ inp2 : Script, pyStrip inp2.choice = "1" → parsePyInt inp2.value = none →
        (user_input_options inp2).result = .invalidNumber ∧ mainRun inp2 fs0 = .unpackError)
    ∧ (∀ inp3 : Script, pyStrip inp3.choice = "2" → parsePyFloat inp3.value = none →
        (user_input_options inp3).result = .invalidNumber ∧ mainRun inp3 fs0 = .unpackError)
    ∧ (user_input_options ⟨"1", "3", "5", "", "1"⟩).result = .ok 5 "custom_size" [1]
    ∧ parseFileTypes "5,7" = [] := by
  have hu : user_input_options inp = ⟨.invalidChoice, false⟩ := by
    simp only [user_input_options]
    rw [if_pos ⟨h1, h2⟩]
  refine ⟨by rw [hu], by simp only [mainRun, hu], ?_, ?_, by decide, by decide⟩
  · intro inp2 hc hp
    have hu2 : user_input_options inp2 = ⟨.invalidNumber, false⟩ := by
      simp [user_input_options, hc, hp]
    exact ⟨by rw [hu2], by simp only [mainRun, hu2]⟩
  · intro inp3 hc hp
    have hu3 : user_input_options inp3 = ⟨.invalidNumber, false⟩ := by
      simp [user_input_options, hc, hp]
    exact ⟨by rw [hu3], by simp only [mainRun, hu3]⟩

/-- Witness for C5's amended statement: the mode answer `"9"` aborts
with the invalid-choice diagnostic and `__main__` raises on unpack. -/
theorem c5_amended_abort_behaviour_witness :
    (user_input_options ⟨"9", "", "", "", ""⟩).result = .invalidChoice
    ∧ mainRun ⟨"9", "", "", "", ""⟩ [] = .unpackError :=
  ⟨(c5_amended_abort_behaviour ⟨"9", "", "", "", ""⟩ [] (by decide) (by decide)).1,
   (c5_amended_abort_behaviour ⟨"9", "", "", "", ""⟩ [] (by decide) (by decide)).2.1⟩

/-- C7 (confirmed). For every non-negative count the Record Generator
returns exactly that many records; each record's key list is precisely
Full Name, Address, Phone Number, Email Address, Customer Feedback in
that order; and the Address value of every record contains no newline
(every newline of the sampled address was replaced by a comma and
space). -/
theorem c7_record_generator (fake : Nat → FakeSample) (n : Int) (hn : 0 ≤ n) :
    ((generate_data fake n).length : Int) = n
    ∧ ∀ r ∈ generate_data fake n,
        r.map Prod.fst =
          ["Full Name", "Address", "Phone Number", "Email Address", "Customer Feedback"]
        ∧ ∀ p ∈ r, p.1 = "Address" → '\n' ∉ p.2.data := by
  constructor
  · simp [generate_data, Int.toNat_of_nonneg hn]
  · intro r hr
    simp only [generate_data, List.mem_map] at hr
    obtain ⟨i, -, rfl⟩ := hr
    refine ⟨rfl, ?_⟩
    intro p hp hkey
    simp only [mkRecord, List.mem_cons, List.not_mem_nil, or_false] at hp
    rcases hp with rfl | rfl | rfl | rfl | rfl
    · exact ((by decide : ("Full Name" : String) ≠ "Address") hkey).elim
    · exact newline_not_mem_replaceNewlines (fake i).address
    · exact ((by decide : ("Phone Number" : String) ≠ "Address") hkey).elim
    · exact ((by decide : ("Email Address" : String) ≠ "Address") hkey).elim
    · exact ((by decide : ("Customer Feedback" : String) ≠ "Address") hkey).elim

/-- Witness for C7 at the concrete sampler (address holds a newline)
and count 2. -/
theorem c7_record_generator_witness :
    ((generate_data sampleFake 2).length : Int) = 2 :=
  (c7_record_generator sampleFake 2 (by decide)).1

/-- C8 (confirmed). The Size Estimator is monotonic: a strictly smaller
target size never yields a larger record count. -/
theorem c8_size_estimator_monotone (q1 q2 : ℚ) (h : q1 < q2) :
    sizeToCount q1 ≤ sizeToCount q2 := by
  have h' := h.le
  unfold sizeToCount average_bytes_per_record
  apply pyInt_mono
  gcongr

/-- Witness for C8 at the concrete pair 1 MB < 2 MB. -/
theorem c8_size_estimator_monotone_witness :
    sizeToCount 1 ≤ sizeToCount 2 :=
  c8_size_estimator_monotone 1 2 (by norm_num)

/-- C9 (confirmed). `generate_data` is total over all integers: the
batch has length `max n 0`, and a negative requested count yields the
empty list rather than an error (`range` of a negative stop is
empty). -/
theorem c9_generate_data_total (fake : Nat → FakeSample) (n : Int) :
    ((generate_data fake n).length : Int) = max n 0
    ∧ (n < 0 → generate_data fake n = []) := by
  constructor
  · simp only [generate_data, List.length_map, List.length_range]
    exact Int.toNat_eq_max n
  · intro hn
    simp [generate_data, Int.toNat_of_nonpos hn.le]

/-- Witness for C9 at the concrete count -3. -/
theorem c9_generate_data_total_witness :
    generate_data sampleFake (-3) = [] :=
  (c9_generate_data_total sampleFake (-3)).2 (by decide)

/-- C10 (confirmed). When the stripped format answer is not exactly
`"0"`, a value is selected exactly when some comma-separated token
trims to a nonempty digit string with that value in 1..4; invalid
tokens (including a `"0"` mixed with other codes) are dropped silently;
duplicates are preserved in entry order, and `"1,1"` drives the Excel
exporter twice, producing two distinct files, the second with the `(1)`
disambiguator. -/
theorem c10_format_selection (s : String) (hs : pyStrip s ≠ "0") :
    (∀ v : Nat, v ∈ parseFileTypes s ↔
      ∃ tok ∈ pySplit ',' (pyStrip s),
        isDigits (pyStrip tok) ∧ natOfDigits (pyStrip tok) = v ∧ 1 ≤ v ∧ v ≤ 4)
    ∧ parseFileTypes "1,1" = [1, 1]
    ∧ parseFileTypes "0,1" = [1]
    ∧ (runExports "5_records" [1, 1] []).2 =
        [joinPath excel_dir "customer_responses_5_records.xlsx",
         joinPath excel_dir "customer_responses_5_records(1).xlsx"]
    ∧ joinPath excel_dir "customer_responses_5_records.xlsx" ≠
        joinPath excel_dir "customer_responses_5_records(1).xlsx" := by
  refine ⟨?_, by decide, by decide, by decide, by decide⟩
  intro v
  simp only [parseFileTypes]
  rw [if_neg hs, List.mem_filterMap]
  constructor
  · rintro ⟨tok, htok, hk⟩
    exact ⟨tok, htok, keepToken_eq_some.mp hk⟩
  · rintro ⟨tok, htok, hprops⟩
    exact ⟨tok, htok, keepToken_eq_some.mpr hprops⟩

/-- Witness for C10 at the concrete answer `"1,1"`. -/
theorem c10_format_selection_witness :
    parseFileTypes "1,1" = [1, 1] :=
  (c10_format_selection "1,1" (by decide)).2.1
